import Mathlib

/-!
Shallow embedding of the `km_data` crate (src/lib.rs and src/download.rs):
a name-keyed resource store over a per-user data directory, with an
optional network bootstrap.  The filesystem, the network and the external
(de)serializers are modelled as an explicit `World` parameter; machine
strings are Lean `String`s (the model assumes valid UTF-8, so Rust's
`to_string_lossy` is the identity), and opaque error payloads
(`std::io::Error`, `minreq::Error`, decoder errors) are modelled as `Nat`
codes.
-/

namespace KmData

/-- File contents (`Vec<u8>`) as a list of bytes. -/
abbrev Bytes := List Nat

/-- Opaque payload of a `std::io::Error`. -/
abbrev IOErr := Nat

/-- Opaque payload of a `minreq::Error` (request or JSON failure). -/
abbrev NetErr := Nat

/-- Opaque payload of a decoder error (`rmp_serde` / `serde_json`). -/
abbrev DeserErr := Nat

/-- The `io::ErrorKind::NotFound` error raised by the OS itself when a
path (or its parent directory) does not exist. -/
def ioNotFound : IOErr := 0

/-- A `PathBuf`, as its list of components. -/
abbrev Path := List String

/-- Rust `PathBuf::join` with a single extra component. -/
def pathJoin (p : Path) (s : String) : Path := p ++ [s]

/-- From `src/lib.rs`: `pub enum DataKind { Corpus, Keyboard, Layout }`. -/
inductive DataKind where
  | Corpus
  | Keyboard
  | Layout
deriving DecidableEq

/-- From `src/lib.rs`: `pub enum Error` (the `download` feature variant included). -/
inductive Error where
  | BaseDirs
  | DirCreate (e : IOErr)
  | DirRead (e : IOErr)
  | FileRead (e : IOErr)
  | FileWrite (e : IOErr)
  | Locate (kind : DataKind) (name : String)
  | RmpDeserialize (e : DeserErr)
  | JsonDeserialize (e : DeserErr)
  | Download (e : NetErr)
deriving DecidableEq

/-- From `src/download.rs`: `struct GithubFileData { name, download_url }`. -/
structure GithubFileData where
  name : String
  download_url : String
deriving DecidableEq

/-- One HTTP request issued by the bootstrap fetcher: either the listing
request of a category (`get(url).send()` plus `.json()`), or the fetch
of one entry's content. -/
inductive Event where
  | listReq (url : String)
  | fetchReq (url : String)
deriving DecidableEq

/-- The trace of HTTP requests, in the order they are issued. -/
abbrev Trace := List Event

/-- The listing requests of a trace, in order. -/
def listUrls (t : Trace) : List String :=
  t.filterMap fun ev =>
    match ev with
    | .listReq u => some u
    | .fetchReq _ => none

/-- The environment the crate runs against: the per-user data root
reported by the `directories` crate, the filesystem (directories with
their entries in listing order, and file contents), fault injection for
each filesystem operation, and the remote side of the bootstrap. -/
structure World where
  /-- Result of `BaseDirs::new().data_dir()`; `none` models `BaseDirs::new() == None`. -/
  baseDirs : Option Path
  /-- Existing directories with their entries; an `Except.error` entry is a
  `read_dir` iterator item that fails. -/
  dirs : List (Path × List (Except IOErr String))
  /-- Existing files and their contents. -/
  files : List (Path × Bytes)
  /-- Injected failure of `fs::read_dir` on a path. -/
  readDirErr : Path → Option IOErr
  /-- Injected failure of `fs::read` / `read_to_string` on a path. -/
  readFileErr : Path → Option IOErr
  /-- Injected failure of `fs::create_dir_all` on a path. -/
  createErr : Path → Option IOErr
  /-- Injected failure of `fs::write` on a path. -/
  writeErr : Path → Option IOErr
  /-- Remote answer to a category listing request: `get(url).send()`
  composed with `Response::json::<Vec<GithubFileData>>()`; both failure
  points raise `minreq::Error`, so a single `NetErr` covers them. -/
  listingResp : String → Except NetErr (List GithubFileData)
  /-- Remote answer to fetching one entry's `download_url`. -/
  fetchResp : String → Except NetErr Bytes

/-- Whether `p` is an existing directory. -/
def World.isDir (w : World) (p : Path) : Bool :=
  w.dirs.any fun d => d.1 == p

/-- Whether `p` is an existing file. -/
def World.isFile (w : World) (p : Path) : Bool :=
  w.files.any fun f => f.1 == p

/-- Rust `Path::exists`. -/
def World.pathExists (w : World) (p : Path) : Bool :=
  w.isDir p || w.isFile p

/-- Model of `fs::read_dir(p)`: the entries of `p` in listing order, or an I/O
error (injected, or `NotFound` when `p` is not a directory). -/
def readDir (w : World) (p : Path) : Except IOErr (List (Except IOErr String)) :=
  match w.readDirErr p with
  | some e => .error e
  | none =>
    match w.dirs.find? (fun d => d.1 == p) with
    | some d => .ok d.2
    | none => .error ioNotFound

/-- Model of `fs::read(p)` (and the byte-level part of `fs::read_to_string`). -/
def readFile (w : World) (p : Path) : Except IOErr Bytes :=
  match w.readFileErr p with
  | some e => .error e
  | none =>
    match w.files.find? (fun f => f.1 == p) with
    | some f => .ok f.2
    | none => .error ioNotFound

/-- Model of `fs::create_dir_all(p)`: idempotent creation of `p` (parents elided:
no operation in the crate depends on a created directory's parents). -/
def createDirAll (w : World) (p : Path) : Except IOErr World :=
  match w.createErr p with
  | some e => .error e
  | none =>
    if w.isDir p then .ok w
    else .ok { w with dirs := w.dirs ++ [(p, [])] }

/-- Model of `fs::write(dir.join(name), b)`: fails on an injected error or — as the
OS does — with `NotFound` when the parent directory does not exist;
otherwise (over)writes the file and registers the name in the parent's
listing (appended when new, keeping its place when overwritten). -/
def writeFile (w : World) (dir : Path) (name : String) (b : Bytes) : Except IOErr World :=
  match w.writeErr (pathJoin dir name) with
  | some e => .error e
  | none =>
    if w.isDir dir then
      .ok { w with
        files := (pathJoin dir name, b) ::
          w.files.filter (fun f => !(f.1 == pathJoin dir name)),
        dirs := w.dirs.map fun d =>
          if d.1 == dir then
            (d.1,
             if d.2.any (fun x =>
                 match x with
                 | .ok n => n == name
                 | .error _ => false)
             then d.2 else d.2 ++ [.ok name])
          else d }
    else .error ioNotFound

/-- Rust `Path::file_stem` on a plain file name (as a character list):
the part before the last dot, or the whole name when there is no dot or
only a leading one. -/
def fileStemChars (cs : List Char) : List Char :=
  match (cs.reverse.dropWhile fun c => c != '.') with
  | [] => cs
  | _ :: rest => if rest = [] then cs else rest.reverse

/-- Rust `Path::file_stem` on the final component of a directory entry's
path; `none` when the component is not a file name. -/
def fileStem (name : String) : Option String :=
  if name = "" || name = "." || name = ".." then none
  else some (String.mk (fileStemChars name.toList))

/-- A `HashMap<String, PathBuf>`; only its insert/lookup semantics are
modelled: an association list with unique keys. -/
abbrev Catalog := List (String × Path)

/-- Model of `HashMap::insert`: a later insert overwrites an earlier one. -/
def hmInsert (m : Catalog) (k : String) (v : Path) : Catalog :=
  m.filter (fun e => !(e.1 == k)) ++ [(k, v)]

/-- Model of `HashMap::get`. -/
def hmGet (m : Catalog) (s : String) : Option Path :=
  (m.find? fun e => e.1 == s).map Prod.snd

/-- Model of `Iterator::collect::<HashMap<_, _>>()`: repeated insertion in
iterator order. -/
def collectHM (l : List (String × Path)) : Catalog :=
  l.foldl (fun m kv => hmInsert m kv.1 kv.2) []

/-- The value the last pair of `l` with key `s` carries, if any. -/
def lastVal (l : List (String × Path)) (s : String) : Option Path :=
  (l.reverse.find? fun q => q.1 == s).map Prod.snd

/-- The body of `dir_to_hashmap`'s `filter_map` closure for one
`read_dir` item: a failed item (`x.as_ref().ok()?`) or a path without a
file stem (`file_stem()?`) is skipped; otherwise the pair
(stem, full path) is produced. -/
def entryToPair (dir : Path) (x : Except IOErr String) : Option (String × Path) :=
  match x with
  | .error _ => none
  | .ok name =>
    match fileStem name with
    | none => none
    | some stem => some (stem, pathJoin dir name)

/-- From `src/lib.rs: fn dir_to_hashmap(dir: &Path)`. -/
def dir_to_hashmap (w : World) (dir : Path) : Except Error Catalog :=
  match readDir w dir with
  | .error e => .error (.DirRead e)
  | .ok entries => .ok (collectHM (entries.filterMap (entryToPair dir)))

/-- The crate's cargo features `corpora`, `keyboards`, `layouts`
(`download` is carried by which constructor is called). -/
structure Features where
  corpora : Bool
  keyboards : Bool
  layouts : Bool

/-- From `src/lib.rs: pub struct Data`.  A field whose feature is disabled is
compiled out in the source; here it is the empty catalog, never built
from the filesystem. -/
structure Data where
  data_dir : Path
  corpora : Catalog
  keyboards : Catalog
  layouts : Catalog

/-- From `src/lib.rs: Data::create_directories`: creates the `corpora`,
`metrics` and `layouts` subdirectories, in that order, stopping at the
first failure. -/
def create_directories (w : World) (data_dir : Path) : Except Error World :=
  match createDirAll w (pathJoin data_dir "corpora") with
  | .error e => .error (.DirCreate e)
  | .ok w1 =>
    match createDirAll w1 (pathJoin data_dir "metrics") with
    | .error e => .error (.DirCreate e)
    | .ok w2 =>
      match createDirAll w2 (pathJoin data_dir "layouts") with
      | .error e => .error (.DirCreate e)
      | .ok w3 => .ok w3

/-- From `src/lib.rs: Data::new`: locate the base directory, create the three
category subdirectories, then scan one catalog per enabled feature — the
`corpora` field from `corpora/`, the `keyboards` field from `metrics/`,
the `layouts` field from `layouts/`, in struct-literal order. -/
def Data.new (f : Features) (w : World) : Except Error (Data × World) :=
  match w.baseDirs with
  | none => .error .BaseDirs
  | some base =>
    let data_dir := pathJoin base "keymeow"
    match create_directories w data_dir with
    | .error e => .error e
    | .ok w1 =>
      match (if f.corpora then dir_to_hashmap w1 (pathJoin data_dir "corpora") else .ok []) with
      | .error e => .error e
      | .ok cor =>
        match (if f.keyboards then dir_to_hashmap w1 (pathJoin data_dir "metrics") else .ok []) with
        | .error e => .error e
        | .ok keyb =>
          match (if f.layouts then dir_to_hashmap w1 (pathJoin data_dir "layouts") else .ok []) with
          | .error e => .error e
          | .ok lay =>
            .ok ({ data_dir := data_dir, corpora := cor, keyboards := keyb, layouts := lay }, w1)

/-- From `src/lib.rs: Data::get_corpus`, parametric in the external
`rmp_serde::from_slice` decoder and the decoded type. -/
def get_corpus {α : Type} (rmpDec : Bytes → Except DeserErr α)
    (d : Data) (w : World) (s : String) : Except Error α :=
  match hmGet d.corpora s with
  | none => .error (.Locate .Corpus s)
  | some path =>
    match readFile w path with
    | .error e => .error (.FileRead e)
    | .ok b =>
      match rmpDec b with
      | .error e => .error (.RmpDeserialize e)
      | .ok v => .ok v

/-- From `src/lib.rs: Data::get_metrics`: like `get_corpus` but through the
`keyboards` catalog. -/
def get_metrics {α : Type} (rmpDec : Bytes → Except DeserErr α)
    (d : Data) (w : World) (s : String) : Except Error α :=
  match hmGet d.keyboards s with
  | none => .error (.Locate .Keyboard s)
  | some path =>
    match readFile w path with
    | .error e => .error (.FileRead e)
    | .ok b =>
      match rmpDec b with
      | .error e => .error (.RmpDeserialize e)
      | .ok v => .ok v

/-- From `src/lib.rs: Data::get_layout`.  NOTE: the source resolves the name
through `self.keyboards` — the keyboard-metrics catalog — not through
`self.layouts`, and a miss is reported as `Locate(Keyboard, s)`.
`fs::read_to_string`'s UTF-8 validation (`utf8`, an `io::Error` on
failure, wrapped in `FileRead`) and `serde_json::from_str` (`jsonDec`)
are external and passed as parameters. -/
def get_layout {α : Type} (utf8 : Bytes → Except IOErr String)
    (jsonDec : String → Except DeserErr α)
    (d : Data) (w : World) (s : String) : Except Error α :=
  match hmGet d.keyboards s with
  | none => .error (.Locate .Keyboard s)
  | some path =>
    match readFile w path with
    | .error e => .error (.FileRead e)
    | .ok b =>
      match utf8 b with
      | .error e => .error (.FileRead e)
      | .ok str =>
        match jsonDec str with
        | .error e => .error (.JsonDeserialize e)
        | .ok v => .ok v

/-- From `src/download.rs`: the three category listing URLs, in the order
`download_files` visits them. -/
def LAYOUTS_URL : String := "https://api.github.com/repos/semilin/km_layouts/contents/"

def METRICS_URL : String := "https://api.github.com/repos/semilin/km_metric_data/contents/"

def CORPORA_URL : String := "https://api.github.com/repos/semilin/km_corpora/contents/"

/-- The body of `download_repo`'s `for` loop over the listing: fetch each
entry's content; `if let Ok(contents) = ...` swallows a failed fetch and
continues, while a failed `fs::write` of fetched content aborts with
`Error::FileWrite` (the `?` behind `map_err`). -/
def download_entries (dir : Path) (w : World) (log : Trace) :
    List GithubFileData → Except Error World × Trace
  | [] => (.ok w, log)
  | fd :: rest =>
    let log1 := log ++ [.fetchReq fd.download_url]
    match w.fetchResp fd.download_url with
    | .error _ => download_entries dir w log1 rest
    | .ok contents =>
      match writeFile w dir fd.name contents with
      | .error e => (.error (.FileWrite e), log1)
      | .ok w1 => download_entries dir w1 log1 rest

/-- From `src/download.rs: fn download_repo(directory, url)`: request the
listing (`resp?.json::<Vec<GithubFileData>>()?` — both failures are
`minreq::Error`, surfaced as `Error::Download`), then process the
entries. -/
def download_repo (w : World) (log : Trace) (dir : Path) (url : String) :
    Except Error World × Trace :=
  let log1 := log ++ [.listReq url]
  match w.listingResp url with
  | .error e => (.error (.Download e), log1)
  | .ok data => download_entries dir w log1 data

/-- From `src/download.rs: pub fn download_files(data_dir)`: one
`download_repo` per category — layouts, then metrics, then corpora —
each behind a `?`. -/
def download_files (w : World) (log : Trace) (data_dir : Path) :
    Except Error World × Trace :=
  match download_repo w log (pathJoin data_dir "layouts") LAYOUTS_URL with
  | (.error e, l) => (.error e, l)
  | (.ok w1, l1) =>
    match download_repo w1 l1 (pathJoin data_dir "metrics") METRICS_URL with
    | (.error e, l) => (.error e, l)
    | (.ok w2, l2) =>
      match download_repo w2 l2 (pathJoin data_dir "corpora") CORPORA_URL with
      | (.error e, l) => (.error e, l)
      | (.ok w3, l3) => (.ok w3, l3)

/-- From `src/download.rs: Data::with_download`: locate the base directory;
when the data directory does not exist yet, run `download_files(..)?` —
the `?` propagates an aborted bootstrap's error — and only then (or
directly, when the directory exists) run `Data::new`. -/
def with_download (f : Features) (w : World) : Except Error (Data × World) × Trace :=
  match w.baseDirs with
  | none => (.error .BaseDirs, [])
  | some base =>
    let data_dir := pathJoin base "keymeow"
    if w.pathExists data_dir then
      (Data.new f w, [])
    else
      match download_files w [] data_dir with
      | (.error e, l) => (.error e, l)
      | (.ok w1, l) => (Data.new f w1, l)

/-! ### Concrete decoders and worlds used to evaluate the model -/

/-- A decoder that accepts any bytes (a scenario where the external
deserializer succeeds). -/
def decUnit : Bytes → Except DeserErr Unit := fun _ => .ok ()

/-- UTF-8 validation that accepts any bytes. -/
def u8Ok : Bytes → Except IOErr String := fun _ => .ok "x"

/-- A JSON decoder that accepts any string. -/
def jsUnit : String → Except DeserErr Unit := fun _ => .ok ()

/-- No injected filesystem failures. -/
def noFail : Path → Option IOErr := fun _ => none

/-- All three category features enabled. -/
def fAll : Features := { corpora := true, keyboards := true, layouts := true }

/-- The data directory of the concrete worlds below. -/
def ddHome : Path := ["home", "keymeow"]

/-- A benign world: a home directory, no files or directories yet, no
injected failures, every remote listing empty. -/
def wBlank : World :=
  { baseDirs := some ["home"]
    dirs := []
    files := []
    readDirErr := noFail
    readFileErr := noFail
    createErr := noFail
    writeErr := noFail
    listingResp := fun _ => .ok []
    fetchResp := fun _ => .ok [] }

/-- A store with empty catalogs. -/
def emptyData : Data :=
  { data_dir := ddHome, corpora := [], keyboards := [], layouts := [] }

/-- Whether a `Load` outcome is a typed value or one of the three
documented failures: a lookup miss (`Locate`), an I/O failure on the
resolved path (`FileRead`), or a deserialization failure
(`RmpDeserialize` / `JsonDeserialize`). -/
def isLoadOutcome {α : Type} : Except Error α → Bool
  | .ok _ => true
  | .error (.Locate _ _) => true
  | .error (.FileRead _) => true
  | .error (.RmpDeserialize _) => true
  | .error (.JsonDeserialize _) => true
  | .error _ => false

/-- The path of a layout file catalogued under the stem `qwerty`. -/
def pQwerty : Path := ["home", "keymeow", "layouts", "qwerty.json"]

/-- A store whose layouts catalog holds `qwerty` while the keyboards
catalog is empty. -/
def dLayoutOnly : Data :=
  { data_dir := ddHome, corpora := [], keyboards := [], layouts := [("qwerty", pQwerty)] }

/-- A world where the catalogued layout file exists and is readable. -/
def wQwerty : World := { wBlank with files := [(pQwerty, [1, 2])] }

/-- A world whose every remote listing request fails with error code 7. -/
def wNetFail : World := { wBlank with listingResp := fun _ => .error 7 }

/-- World `wNetFail` after the three category subdirectories were created. -/
def wNetFailAfter : World :=
  { wNetFail with
    dirs := [(pathJoin ddHome "corpora", []), (pathJoin ddHome "metrics", []),
             (pathJoin ddHome "layouts", [])] }

/-- The single remote entry of the fresh-bootstrap scenario. -/
def fdA : GithubFileData := { name := "a.json", download_url := "u1" }

/-- A fresh first run: no local state at all, the layouts listing holds
one entry, every content fetch succeeds. -/
def wFresh : World :=
  { wBlank with
    listingResp := fun u => if u == LAYOUTS_URL then .ok [fdA] else .ok []
    fetchResp := fun _ => .ok [1] }

/-- A world where listing the directory `bad` fails with error code 5. -/
def wDirErr : World :=
  { wBlank with readDirErr := fun p => if p == ["bad"] then some 5 else none }

/-- A directory listing with one good entry, one failed entry, and one
entry without extension. -/
def esW : List (Except IOErr String) := [.ok "a.json", .error 3, .ok "b"]

/-- A world holding the directory `d` with listing `esW`. -/
def wDirOk : World := { wBlank with dirs := [(["d"], esW)] }

/-- Whether no entry of `l` yields a catalog pair with key `st`. -/
def noStemIn (dir : Path) (st : String) (l : List (Except IOErr String)) : Bool :=
  l.all fun x =>
    match entryToPair dir x with
    | none => true
    | some q => !(q.1 == st)

/-- A listing in which `a.json` and `a.bin` share the stem `a`
(`a.bin` encountered later), with noise around them. -/
def esDup : List (Except IOErr String) := [.ok "a.json", .error 9, .ok "a.bin", .ok "c.txt"]

/-- A world holding the directory `d` with listing `esDup`. -/
def wDirDup : World := { wBlank with dirs := [(["d"], esDup)] }

/-- Corpora and layouts enabled, keyboards disabled. -/
def fCL : Features := { corpora := true, keyboards := false, layouts := true }

/-- World `wBlank` after the three category subdirectories were created. -/
def wBlankDirs : World :=
  { wBlank with
    dirs := [(pathJoin ddHome "corpora", []), (pathJoin ddHome "metrics", []),
             (pathJoin ddHome "layouts", [])] }

/-- A world exercising each bootstrap failure at once: the layouts
listing fails (code 5), fetching `u1` fails (code 6), any other fetch
succeeds, and writing `d/b.bin` fails (code 7). -/
def wRoute : World :=
  { wBlank with
    dirs := [(["d"], [])]
    listingResp := fun u => if u == LAYOUTS_URL then .error 5 else .ok []
    fetchResp := fun u => if u == "u1" then .error 6 else .ok [9]
    writeErr := fun p => if p == pathJoin ["d"] "b.bin" then some 7 else none }

/-- An entry whose content fetch fails in `wRoute`. -/
def fdFetchFail : GithubFileData := { name := "x.bin", download_url := "u1" }

/-- An entry whose content fetch succeeds but whose write fails in
`wRoute`. -/
def fdWriteFail : GithubFileData := { name := "b.bin", download_url := "u2" }

/-! ### Helper lemmas on the catalog model -/

/-- Lookup after an overwriting insert. -/
theorem hmGet_insert (m : Catalog) (k : String) (v : Path) (s : String) :
    hmGet (hmInsert m k v) s = if k == s then some v else hmGet m s := by
  unfold hmGet hmInsert
  rw [List.find?_append, List.find?_filter]
  by_cases h : k = s
  · subst h
    have hnone : List.find? (fun a => decide ((!(a.1 == k)) = true ∧ (a.1 == k) = true)) m = none := by
      rw [List.find?_eq_none]
      intro x _ hx
      simp at hx
    simp [hnone]
  · have hbeq : (k == s) = false := by simp [h]
    have hsingle : (List.find? (fun q => q.1 == s) [(k, v)]) = none := by
      simp [List.find?, hbeq]
    rw [hsingle, Option.or_none, hbeq]
    have hcongr : (fun a : String × Path => decide ((!(a.1 == k)) = true ∧ (a.1 == s) = true)) = fun a => a.1 == s := by
      funext a
      by_cases ha : a.1 = s
      · subst ha
        have hk : (a.1 == k) = false := by
          rw [beq_eq_false_iff_ne]
          exact fun hh => h hh.symm
        simp [hk]
      · simp [ha]
    rw [hcongr]
    simp

/-- Lookup in a fold of overwriting inserts: the last insert wins,
falling back to the initial map. -/
theorem collect_get_aux (l : List (String × Path)) (init : Catalog) (s : String) :
    hmGet (l.foldl (fun m kv => hmInsert m kv.1 kv.2) init) s = (lastVal l s).or (hmGet init s) := by
  induction l generalizing init with
  | nil => simp [lastVal]
  | cons kv t ih =>
    rw [List.foldl_cons, ih]
    unfold lastVal
    rw [List.reverse_cons, List.find?_append, hmGet_insert]
    cases hfind : List.find? (fun q => q.1 == s) t.reverse with
    | some q => simp [hfind]
    | none =>
      cases hkv : (kv.1 == s) with
      | true => simp [hfind, List.find?, hkv]
      | false => simp [hfind, List.find?, hkv]

/-- Lookup in a collected `HashMap` finds the value of the last pair
carrying the key. -/
theorem collect_get (l : List (String × Path)) (s : String) :
    hmGet (collectHM l) s = lastVal l s := by
  rw [collectHM, collect_get_aux]
  simp [hmGet]

/-- Lookup by `lastVal` over an append prefers the later part. -/
theorem lastVal_append (xs ys : List (String × Path)) (s : String) :
    lastVal (xs ++ ys) s = (lastVal ys s).or (lastVal xs s) := by
  unfold lastVal
  rw [List.reverse_append, List.find?_append]
  cases hfind : List.find? (fun q => q.1 == s) ys.reverse with
  | some q => simp [hfind]
  | none => simp [hfind]

/-- Lookup by `lastVal` of a cons falls back to the head only when the tail
misses. -/
theorem lastVal_cons (kv : String × Path) (t : List (String × Path)) (s : String) :
    lastVal (kv :: t) s = (lastVal t s).or (if kv.1 == s then some kv.2 else none) := by
  unfold lastVal
  rw [List.reverse_cons, List.find?_append]
  cases hfind : List.find? (fun q => q.1 == s) t.reverse with
  | some q => simp [hfind]
  | none =>
    cases hkv : (kv.1 == s) with
    | true => simp [hfind, List.find?, hkv]
    | false => simp [hfind, List.find?, hkv]

/-- Lookup by `lastVal` misses a list none of whose keys match. -/
theorem lastVal_none (l : List (String × Path)) (s : String)
    (h : ∀ q ∈ l, (q.1 == s) = false) : lastVal l s = none := by
  unfold lastVal
  have hn : List.find? (fun q => q.1 == s) l.reverse = none := by
    rw [List.find?_eq_none]
    intro x hx
    simp [h x (List.mem_reverse.mp hx)]
  simp [hn]

/-- The pairs produced from entries none of which carries stem `st` all
have a key other than `st`. -/
theorem noStemIn_filterMap (dir : Path) (st : String) (l : List (Except IOErr String))
    (h : noStemIn dir st l = true) :
    ∀ q ∈ l.filterMap (entryToPair dir), (q.1 == st) = false := by
  intro q hq
  obtain ⟨x, hx, hxq⟩ := List.mem_filterMap.mp hq
  have hall := List.all_eq_true.mp h x hx
  rw [hxq] at hall
  simpa using hall

/-- A successful `create_dir_all` makes `p` a directory and keeps every
existing directory. -/
theorem createDirAll_ok (w : World) (p : Path) (w' : World)
    (h : createDirAll w p = .ok w') :
    w'.isDir p = true ∧ ∀ q, w.isDir q = true → w'.isDir q = true := by
  unfold createDirAll at h
  cases hc : w.createErr p with
  | some e => simp [hc] at h
  | none =>
    simp only [hc] at h
    by_cases hd : w.isDir p = true
    · rw [if_pos hd] at h
      injection h with h'
      subst h'
      exact ⟨hd, fun q hq => hq⟩
    · rw [if_neg hd] at h
      injection h with h'
      subst h'
      constructor
      · unfold World.isDir
        simp [List.any_append]
      · intro q hq
        unfold World.isDir at hq ⊢
        simp only [List.any_append]
        rw [hq]
        rfl

/-- A successful `create_directories` leaves all three category
subdirectories existing. -/
theorem create_directories_ok (w : World) (dd : Path) (w' : World)
    (h : create_directories w dd = .ok w') :
    w'.isDir (pathJoin dd "corpora") = true ∧
    w'.isDir (pathJoin dd "metrics") = true ∧
    w'.isDir (pathJoin dd "layouts") = true := by
  unfold create_directories at h
  cases h1 : createDirAll w (pathJoin dd "corpora") with
  | error e => simp [h1] at h
  | ok wa =>
    simp only [h1] at h
    cases h2 : createDirAll wa (pathJoin dd "metrics") with
    | error e => simp [h2] at h
    | ok wb =>
      simp only [h2] at h
      cases h3 : createDirAll wb (pathJoin dd "layouts") with
      | error e => simp [h3] at h
      | ok wc =>
        simp only [h3, Except.ok.injEq] at h
        subst h
        obtain ⟨ha1, ha2⟩ := createDirAll_ok w _ wa h1
        obtain ⟨hb1, hb2⟩ := createDirAll_ok wa _ wb h2
        obtain ⟨hc1, hc2⟩ := createDirAll_ok wb _ wc h3
        exact ⟨hc2 _ (hb2 _ ha1), hc2 _ hb1, hc1⟩

/-! ### Claim theorems -/

/-- C6: for every store, world, name and external decoder, each of the
three typed getters returns either a typed value or exactly one of the
three load failures — a lookup miss (`Locate`), a file-read failure
(`FileRead`), or a deserialization failure (`RmpDeserialize` /
`JsonDeserialize`) — never any other error kind.  The taxonomy kinds are
distinct constructors of `Error`, so the three failures stay mutually
distinguishable. -/
theorem C6_load_error_taxonomy {α β γ : Type}
    (rmpC : Bytes → Except DeserErr α) (rmpM : Bytes → Except DeserErr β)
    (u8 : Bytes → Except IOErr String) (js : String → Except DeserErr γ)
    (d : Data) (w : World) (s : String) :
    isLoadOutcome (get_corpus rmpC d w s) = true ∧
    isLoadOutcome (get_metrics rmpM d w s) = true ∧
    isLoadOutcome (get_layout u8 js d w s) = true := by
  refine ⟨?_, ?_, ?_⟩
  · unfold get_corpus
    repeat' split
    all_goals rfl
  · unfold get_metrics
    repeat' split
    all_goals rfl
  · unfold get_layout
    repeat' split
    all_goals rfl

/-- C7: when a name is absent from the catalog a getter consults, the
getter fails with `Locate` carrying that catalog's category and the
name, and the result is the same in every world — so no file read or
any other I/O takes place.  `get_corpus` consults the corpora catalog
(miss: `Locate Corpus`); `get_metrics` and `get_layout` both consult the
keyboards catalog (miss: `Locate Keyboard` — for the layout getter this
routing is the defect settled with C1). -/
theorem C7_lookup_miss_no_io {α β γ : Type}
    (rmpC : Bytes → Except DeserErr α) (rmpM : Bytes → Except DeserErr β)
    (u8 : Bytes → Except IOErr String) (js : String → Except DeserErr γ)
    (d : Data) (s : String)
    (hc : hmGet d.corpora s = none) (hk : hmGet d.keyboards s = none) :
    (∀ w : World, get_corpus rmpC d w s = .error (.Locate .Corpus s)) ∧
    (∀ w : World, get_metrics rmpM d w s = .error (.Locate .Keyboard s)) ∧
    (∀ w : World, get_layout u8 js d w s = .error (.Locate .Keyboard s)) := by
  refine ⟨fun w => ?_, fun w => ?_, fun w => ?_⟩
  · unfold get_corpus
    rw [hc]
  · unfold get_metrics
    rw [hk]
  · unfold get_layout
    rw [hk]

/-- Witness for C7 at a concrete input: the empty store, the name
`nope`, and the benign world. -/
theorem C7_lookup_miss_no_io_witness :
    get_corpus decUnit emptyData wBlank "nope" = .error (.Locate .Corpus "nope") :=
  (C7_lookup_miss_no_io decUnit decUnit u8Ok jsUnit emptyData "nope" rfl rfl).1 wBlank

/-- C1 (code bug): evaluated on a store whose layouts catalog maps
`qwerty` to an existing readable file while the keyboards catalog is
empty, `get_layout` does not resolve through the layouts catalog: it
fails with `Locate (Keyboard, qwerty)` because the source looks the name
up in `self.keyboards`, even though the layouts catalog holds the name
and the file it maps to is readable and would deserialize. -/
theorem C1_layout_lookup_defect :
    get_layout u8Ok jsUnit dLayoutOnly wQwerty "qwerty" = .error (.Locate .Keyboard "qwerty") ∧
    hmGet dLayoutOnly.layouts "qwerty" = some pQwerty ∧
    readFile wQwerty pQwerty = .ok [1, 2] ∧
    jsUnit "x" = .ok () :=
  ⟨rfl, rfl, rfl, rfl⟩

/-- C8: building a catalog from a directory fails — with `DirRead` of
the underlying cause — exactly when the directory cannot be listed;
on any successful listing it succeeds, and the resulting catalog maps a
name to the full path of the last listed entry whose stem is that name
(`lastVal` over `entryToPair`, which skips failed entries and entries
without a usable stem); an empty listing yields the empty catalog, not
an error. -/
theorem C8_catalog_build (w1 w2 : World) (dir1 dir2 : Path) (e : IOErr)
    (es : List (Except IOErr String))
    (h1 : readDir w1 dir1 = .error e)
    (h2 : readDir w2 dir2 = .ok es) :
    dir_to_hashmap w1 dir1 = .error (.DirRead e) ∧
    ∃ c, dir_to_hashmap w2 dir2 = .ok c ∧
      (∀ s, hmGet c s = lastVal (es.filterMap (entryToPair dir2)) s) ∧
      (es = [] → c = []) := by
  constructor
  · unfold dir_to_hashmap
    rw [h1]
  · refine ⟨collectHM (es.filterMap (entryToPair dir2)), ?_, fun s => collect_get _ s, ?_⟩
    · unfold dir_to_hashmap
      rw [h2]
    · intro he
      subst he
      rfl

/-- Witness for C8 at concrete inputs: a world whose directory `bad`
fails to list with cause 5, and a world whose directory `d` lists
`[ok a.json, error 3, ok b]`. -/
theorem C8_catalog_build_witness :
    dir_to_hashmap wDirErr ["bad"] = .error (.DirRead 5) ∧
    ∃ c, dir_to_hashmap wDirOk ["d"] = .ok c ∧
      (∀ s, hmGet c s = lastVal (esW.filterMap (entryToPair ["d"])) s) ∧
      (esW = [] → c = []) :=
  C8_catalog_build wDirErr wDirOk ["bad"] ["d"] 5 esW rfl rfl

/-- C9: when two entries of a successful listing produce the same stem,
the catalog maps that stem to the full path of the entry encountered
later in listing order (here: no entry after the second one carries the
stem, so the second is the later of the duplicates). -/
theorem C9_later_duplicate_wins (w : World) (dir : Path)
    (l1 l2 l3 : List (Except IOErr String)) (n1 n2 st : String)
    (h1 : fileStem n1 = some st) (h2 : fileStem n2 = some st)
    (h3 : noStemIn dir st l3 = true)
    (hr : readDir w dir = .ok (l1 ++ (.ok n1 :: (l2 ++ (.ok n2 :: l3))))) :
    ∃ c, dir_to_hashmap w dir = .ok c ∧ hmGet c st = some (pathJoin dir n2) := by
  refine ⟨collectHM ((l1 ++ (.ok n1 :: (l2 ++ (.ok n2 :: l3)))).filterMap (entryToPair dir)), ?_, ?_⟩
  · unfold dir_to_hashmap
    rw [hr]
  · rw [collect_get]
    have hp1 : entryToPair dir (.ok n1) = some (st, pathJoin dir n1) := by
      simp [entryToPair, h1]
    have hp2 : entryToPair dir (.ok n2) = some (st, pathJoin dir n2) := by
      simp [entryToPair, h2]
    rw [List.filterMap_append, List.filterMap_cons, hp1, List.filterMap_append,
      List.filterMap_cons, hp2]
    rw [lastVal_append, lastVal_cons, lastVal_append, lastVal_cons,
      lastVal_none _ st (noStemIn_filterMap dir st l3 h3)]
    simp

/-- Witness for C9 at a concrete input: the listing
`[ok a.json, error 9, ok a.bin, ok c.txt]` of directory `d` maps the
stem `a` to `d/a.bin`. -/
theorem C9_later_duplicate_wins_witness :
    ∃ c, dir_to_hashmap wDirDup ["d"] = .ok c ∧ hmGet c "a" = some (pathJoin ["d"] "a.bin") :=
  C9_later_duplicate_wins wDirDup ["d"] [] [.error 9] [.ok "c.txt"] "a.json" "a.bin" "a"
    rfl rfl rfl rfl

/-- C10: whenever construction succeeds, all three category
subdirectories — `corpora`, `metrics` and `layouts` — exist under the
data root afterwards, whatever the capability flags were (they are
created before any scan, by `create_directories`); a disabled category's
catalog is never built: it is the empty catalog regardless of the
directory's contents. -/
theorem C10_construction_creates_dirs (f : Features) (w : World) (base : Path)
    (d : Data) (w1 : World)
    (hb : w.baseDirs = some base)
    (h : Data.new f w = .ok (d, w1)) :
    d.data_dir = pathJoin base "keymeow" ∧
    w1.isDir (pathJoin (pathJoin base "keymeow") "corpora") = true ∧
    w1.isDir (pathJoin (pathJoin base "keymeow") "metrics") = true ∧
    w1.isDir (pathJoin (pathJoin base "keymeow") "layouts") = true ∧
    (f.corpora = false → d.corpora = []) ∧
    (f.keyboards = false → d.keyboards = []) ∧
    (f.layouts = false → d.layouts = []) := by
  unfold Data.new at h
  rw [hb] at h
  simp only [] at h
  cases hcd : create_directories w (pathJoin base "keymeow") with
  | error e => simp [hcd] at h
  | ok wa =>
    simp only [hcd] at h
    cases hcor : (if f.corpora then dir_to_hashmap wa (pathJoin (pathJoin base "keymeow") "corpora") else .ok []) with
    | error e => simp [hcor] at h
    | ok cor =>
      simp only [hcor] at h
      cases hkey : (if f.keyboards then dir_to_hashmap wa (pathJoin (pathJoin base "keymeow") "metrics") else .ok []) with
      | error e => simp [hkey] at h
      | ok keyb =>
        simp only [hkey] at h
        cases hlay : (if f.layouts then dir_to_hashmap wa (pathJoin (pathJoin base "keymeow") "layouts") else .ok []) with
        | error e => simp [hlay] at h
        | ok lay =>
          simp only [hlay, Except.ok.injEq, Prod.mk.injEq] at h
          obtain ⟨hd, hw⟩ := h
          subst hd
          subst hw
          obtain ⟨hc1, hc2, hc3⟩ := create_directories_ok w _ _ hcd
          refine ⟨rfl, hc1, hc2, hc3, ?_, ?_, ?_⟩
          · intro hf
            rw [hf] at hcor
            simp at hcor
            first
            | exact hcor.symm
            | exact hcor
          · intro hf
            rw [hf] at hkey
            simp at hkey
            first
            | exact hkey.symm
            | exact hkey
          · intro hf
            rw [hf] at hlay
            simp at hlay
            first
            | exact hlay.symm
            | exact hlay

/-- Witness for C10 at a concrete input: the benign world with corpora
and layouts enabled but keyboards disabled; all three subdirectories
exist afterwards and the keyboards catalog is empty. -/
theorem C10_construction_creates_dirs_witness :
    emptyData.data_dir = pathJoin ["home"] "keymeow" ∧
    wBlankDirs.isDir (pathJoin (pathJoin ["home"] "keymeow") "corpora") = true ∧
    wBlankDirs.isDir (pathJoin (pathJoin ["home"] "keymeow") "metrics") = true ∧
    wBlankDirs.isDir (pathJoin (pathJoin ["home"] "keymeow") "layouts") = true ∧
    (fCL.corpora = false → emptyData.corpora = []) ∧
    (fCL.keyboards = false → emptyData.keyboards = []) ∧
    (fCL.layouts = false → emptyData.layouts = []) :=
  C10_construction_creates_dirs fCL wBlank ["home"] emptyData wBlankDirs rfl rfl

/-- C4: per-entry versus fatal failures during bootstrap of one
category: a failed content fetch of one entry is swallowed — the loop
continues with the remaining entries and the world is untouched; a
failed listing request aborts `download_repo` with `Download` carrying
the network error; a failed write of successfully fetched content
aborts with `FileWrite` carrying the I/O error; and an aborted category
aborts the whole `download_files` bootstrap with the same error. -/
theorem C4_bootstrap_error_routing (w : World) (log : Trace) (dir : Path)
    (url : String) (e eF : NetErr) (c : Bytes) (eW : IOErr)
    (fd1 fd2 : GithubFileData) (rest1 rest2 : List GithubFileData)
    (data_dir : Path) (er : Error) (tr : Trace)
    (h1 : w.listingResp url = .error e)
    (h2 : w.fetchResp fd1.download_url = .error eF)
    (h3 : w.fetchResp fd2.download_url = .ok c)
    (h4 : writeFile w dir fd2.name c = .error eW)
    (h5 : download_repo w log (pathJoin data_dir "layouts") LAYOUTS_URL = (.error er, tr)) :
    download_repo w log dir url = (.error (.Download e), log ++ [.listReq url]) ∧
    download_entries dir w log (fd1 :: rest1) =
      download_entries dir w (log ++ [.fetchReq fd1.download_url]) rest1 ∧
    download_entries dir w log (fd2 :: rest2) =
      (.error (.FileWrite eW), log ++ [.fetchReq fd2.download_url]) ∧
    download_files w log data_dir = (.error er, tr) := by
  refine ⟨?_, ?_, ?_, ?_⟩
  · unfold download_repo
    rw [h1]
  · simp only [download_entries]
    rw [h2]
  · simp only [download_entries, h3, h4]
  · unfold download_files
    rw [h5]

/-- Witness for C4 at concrete inputs in `wRoute`. -/
theorem C4_bootstrap_error_routing_witness :
    download_repo wRoute [] ["d"] LAYOUTS_URL = (.error (.Download 5), [.listReq LAYOUTS_URL]) ∧
    download_entries ["d"] wRoute [] (fdFetchFail :: [fdWriteFail]) =
      download_entries ["d"] wRoute [.fetchReq fdFetchFail.download_url] [fdWriteFail] ∧
    download_entries ["d"] wRoute [] (fdWriteFail :: []) =
      (.error (.FileWrite 7), [.fetchReq fdWriteFail.download_url]) ∧
    download_files wRoute [] [] = (.error (.Download 5), [.listReq LAYOUTS_URL]) :=
  C4_bootstrap_error_routing wRoute [] ["d"] LAYOUTS_URL 5 6 [9] 7
    fdFetchFail fdWriteFail [fdWriteFail] [] [] (.Download 5) [.listReq LAYOUTS_URL]
    rfl rfl rfl rfl rfl

/-- The map `listUrls` distributes over trace concatenation. -/
theorem listUrls_append (a b : Trace) : listUrls (a ++ b) = listUrls a ++ listUrls b := by
  unfold listUrls
  rw [List.filterMap_append]

/-- A fetch request adds no listing URL. -/
theorem listUrls_fetch (log : Trace) (u : String) :
    listUrls (log ++ [.fetchReq u]) = listUrls log := by
  rw [listUrls_append]
  simp [listUrls]

/-- A listing request adds exactly its URL. -/
theorem listUrls_list (log : Trace) (u : String) :
    listUrls (log ++ [.listReq u]) = listUrls log ++ [u] := by
  rw [listUrls_append]
  simp [listUrls]

/-- The entry loop issues only fetch requests: it adds no listing URL to
the trace. -/
theorem download_entries_listUrls (dir : Path) (data : List GithubFileData) :
    ∀ (w : World) (log : Trace),
      listUrls (download_entries dir w log data).2 = listUrls log := by
  induction data with
  | nil => intro w log; rfl
  | cons fd rest ih =>
    intro w log
    simp only [download_entries]
    cases hf : w.fetchResp fd.download_url with
    | error e =>
      rw [ih]
      exact listUrls_fetch log fd.download_url
    | ok c =>
      dsimp only
      cases hw : writeFile w dir fd.name c with
      | error e => exact listUrls_fetch log fd.download_url
      | ok w1 =>
        dsimp only
        rw [ih]
        exact listUrls_fetch log fd.download_url

/-- One `download_repo` adds exactly one listing URL — its own — to the
trace, whatever its outcome. -/
theorem download_repo_listUrls (w : World) (log : Trace) (dir : Path) (url : String) :
    listUrls (download_repo w log dir url).2 = listUrls log ++ [url] := by
  simp only [download_repo]
  cases hl : w.listingResp url with
  | error e => exact listUrls_list log url
  | ok data =>
    rw [download_entries_listUrls]
    exact listUrls_list log url

/-- C5 (amended): the bootstrap issues its category listing requests in
the fixed order layouts, then metrics, then corpora — the listing URLs
of any run's trace are a nonempty prefix of that sequence. -/
theorem C5_fixed_order_layouts_first (w : World) (log : Trace) (data_dir : Path) :
    ∃ n, 1 ≤ n ∧ n ≤ 3 ∧
      listUrls (download_files w log data_dir).2 =
        listUrls log ++ List.take n [LAYOUTS_URL, METRICS_URL, CORPORA_URL] := by
  unfold download_files
  cases hr1 : download_repo w log (pathJoin data_dir "layouts") LAYOUTS_URL with
  | mk r1 t1 =>
    have ht1 : listUrls t1 = listUrls log ++ [LAYOUTS_URL] := by
      have h := download_repo_listUrls w log (pathJoin data_dir "layouts") LAYOUTS_URL
      rw [hr1] at h
      exact h
    cases r1 with
    | error e => exact ⟨1, le_refl 1, by norm_num, ht1⟩
    | ok w1 =>
      dsimp only
      cases hr2 : download_repo w1 t1 (pathJoin data_dir "metrics") METRICS_URL with
      | mk r2 t2 =>
        have ht2 : listUrls t2 = listUrls log ++ [LAYOUTS_URL, METRICS_URL] := by
          have h := download_repo_listUrls w1 t1 (pathJoin data_dir "metrics") METRICS_URL
          rw [hr2, ht1] at h
          simpa using h
        cases r2 with
        | error e => exact ⟨2, by norm_num, by norm_num, ht2⟩
        | ok w2 =>
          dsimp only
          cases hr3 : download_repo w2 t2 (pathJoin data_dir "corpora") CORPORA_URL with
          | mk r3 t3 =>
            have ht3 : listUrls t3 = listUrls log ++ [LAYOUTS_URL, METRICS_URL, CORPORA_URL] := by
              have h := download_repo_listUrls w2 t2 (pathJoin data_dir "corpora") CORPORA_URL
              rw [hr3, ht2] at h
              simpa using h
            cases r3 with
            | error e => exact ⟨3, by norm_num, le_refl 3, ht3⟩
            | ok w3 => exact ⟨3, by norm_num, le_refl 3, ht3⟩

/-- C5 (counterexample to the claimed order): on a run where all three
listings succeed, the listing requests go out as layouts, metrics,
corpora — not as corpora, metrics, layouts. -/
theorem C5_corpora_first_false :
    listUrls (download_files wBlank [] ddHome).2 = [LAYOUTS_URL, METRICS_URL, CORPORA_URL] ∧
    ([LAYOUTS_URL, METRICS_URL, CORPORA_URL] : List String) ≠
      [CORPORA_URL, METRICS_URL, LAYOUTS_URL] := by
  constructor
  · rfl
  · decide

/-- C2 (amended): with the data directory absent, `with_download`
returns an aborted bootstrap's error as its own result — it does not
proceed to construction — and proceeds to `Data::new` on the bootstrap's
resulting world exactly when the bootstrap succeeds. -/
theorem C2_bootstrap_error_propagates (f : Features) (w : World) (base : Path)
    (hb : w.baseDirs = some base)
    (hne : w.pathExists (pathJoin base "keymeow") = false) :
    (∀ e, (download_files w [] (pathJoin base "keymeow")).1 = .error e →
        (with_download f w).1 = .error e) ∧
    (∀ w1, (download_files w [] (pathJoin base "keymeow")).1 = .ok w1 →
        (with_download f w).1 = Data.new f w1) := by
  simp only [with_download, hb, hne, Bool.false_eq_true, if_false]
  cases hdf : download_files w [] (pathJoin base "keymeow") with
  | mk r l =>
    cases r with
    | error e0 =>
      constructor
      · intro e he
        injection he with h
        subst h
        rfl
      · intro w1 hw
        simp at hw
    | ok w0 =>
      constructor
      · intro e he
        simp at he
      · intro w1 hw
        injection hw with h
        subst h
        rfl

/-- Witness for C2's amended claim at a concrete input: in `wNetFail`
(data directory absent, every listing request failing with code 7),
`with_download` returns the bootstrap's `Download` error. -/
theorem C2_bootstrap_error_propagates_witness :
    (with_download fAll wNetFail).1 = .error (.Download 7) :=
  (C2_bootstrap_error_propagates fAll wNetFail ["home"] rfl rfl).1 (.Download 7) rfl

/-- C2 (counterexample to the claim as stated): in `wNetFail` the
bootstrap aborts with `Download 7` and `with_download` returns exactly
that error — no store — even though plain construction on the very same
world succeeds (returning the empty-catalog store): `with_download` does
not proceed to construction after an aborted bootstrap. -/
theorem C2_proceeds_after_abort_false :
    (with_download fAll wNetFail).1 = .error (.Download 7) ∧
    Data.new fAll wNetFail = .ok (emptyData, wNetFailAfter) :=
  ⟨rfl, rfl⟩

/-- C3 (code bug): a genuinely fresh first run — data directory absent,
layouts listing delivering one entry `a.json`, its content fetch
succeeding, and no injected write failure — does not end with the file
present and a catalog holding it: `fs::write` fails with the OS
`NotFound` error because the category subdirectory was never created
(`with_download` bootstraps before `create_directories` runs), so the
bootstrap aborts with `FileWrite` and `with_download` returns that
error. -/
theorem C3_fresh_bootstrap_write_fails :
    (with_download fAll wFresh).1 = .error (.FileWrite ioNotFound) ∧
    wFresh.pathExists ddHome = false ∧
    wFresh.listingResp LAYOUTS_URL = .ok [fdA] ∧
    wFresh.fetchResp "u1" = .ok [1] ∧
    wFresh.writeErr (pathJoin (pathJoin ddHome "layouts") "a.json") = none ∧
    wFresh.isDir (pathJoin ddHome "layouts") = false :=
  ⟨rfl, rfl, rfl, rfl, rfl, rfl⟩

end KmData
